import Mathlib

/-!
Verification development for the Six Rivers Africa GEE export processor
(`src/python/pipeline/gee_export_processor.py`).

The pipeline is embedded shallowly:
* a pandas `DataFrame` becomes a `DataFrame` structure (a header list plus
  typed rows; every cell of a measurement column is `Option ℚ`, `none`
  standing for a NaN/absent cell);
* Python floats become exact rationals, with Python's `round(x, n)`
  (round-half-to-even) embedded as `pyRound`;
* raised exceptions become `Except` values; file presence on disk becomes a
  `FileSystem` function from filename to `Option DataFrame`;
* the two `datetime.now` timestamps taken during one run are passed in as a
  `now : String` parameter, and logging side effects that the claims mention
  (the missing-export warnings) are returned alongside the loaded datasets.
-/

/-- True when `pat` occurs as a contiguous substring of `s`
(the embedding of Python's `in` / `str.contains`). -/
def strContains (s pat : String) : Bool :=
  decide (pat.data <:+: s.data)

/-- ASCII lowercasing, the embedding of Python's `str.lower()` /
pandas `case=False` for the ASCII column names involved. -/
def strToLower (s : String) : String :=
  ⟨s.data.map Char.toLower⟩

/-- Round-half-to-even to an integer, the rounding mode of Python's
built-in `round`. -/
def roundHalfEven (q : ℚ) : ℤ :=
  let f : ℤ := ⌊q⌋
  let frac : ℚ := q - f
  if frac < 1/2 then f
  else if 1/2 < frac then f + 1
  else if f % 2 = 0 then f else f + 1

/-- Embedding of Python's `round(q, ndigits)` on exact rationals. -/
def pyRound (q : ℚ) (ndigits : ℕ) : ℚ :=
  (roundHalfEven (q * (10 ^ ndigits)) : ℚ) / (10 ^ ndigits)

/-- One row of a loaded export table: the four required columns plus the
free-form numeric measurement cells, keyed by column name.  A `none` cell,
like an absent key, stands for NaN. -/
structure Row where
  zone : String
  indicator : String
  year : Int
  month : Int
  extra : List (String × Option ℚ)
deriving Repr, DecidableEq

/-- A loaded export table: the column header (in order) and the rows. -/
structure DataFrame where
  columns : List String
  rows : List Row
deriving Repr, DecidableEq

/-- Numeric value of a cell (`row[col]` in pandas), `none` for NaN. -/
def Row.getNum (r : Row) (c : String) : Option ℚ :=
  if c = "year" then some (r.year : ℚ)
  else if c = "month" then some (r.month : ℚ)
  else (List.lookup c r.extra).join

/-- Whether `df.isnull()` marks the cell at row `r`, column `c`.  The four
required columns are typed (string / int) and never null. -/
def cellIsNull (r : Row) (c : String) : Bool :=
  if c = "zone" || c = "indicator" || c = "year" || c = "month" then false
  else ((List.lookup c r.extra).join).isNone

/-- The numeric columns of a table (`select_dtypes(include=[np.number])`):
everything except the two string columns. -/
def numericCols (df : DataFrame) : List String :=
  df.columns.filter (fun c => c ≠ "zone" && c ≠ "indicator")

/-- First-occurrence deduplication, the embedding of pandas
`Series.unique()` (which preserves order of first appearance). -/
def uniqueFirst (l : List String) : List String :=
  l.foldl (fun acc x => if acc.contains x then acc else acc ++ [x]) []

/-- Mean of a column over a list of rows, skipping NaN cells exactly as
pandas `Series.mean()` does; `none` when every cell is NaN (or no rows). -/
def colMean (rows : List Row) (c : String) : Option ℚ :=
  let vs := rows.filterMap (fun r => r.getNum c)
  if vs.isEmpty then none else some (vs.sum / vs.length)

-- ===========================================================================
-- DATA INGESTION  (load_gee_export / load_monthly_exports)
-- ===========================================================================

/-- The required columns checked by `load_gee_export`. -/
def required_cols : List String := ["zone", "indicator", "year", "month"]

/-- The required columns absent from a table's header. -/
def missingCols (df : DataFrame) : List String :=
  required_cols.filter (fun c => ¬ df.columns.contains c)

/-- Embedding of `load_gee_export`: fail with the missing required columns
(the `ValueError` of line 61), otherwise return the table (the
`astype(int)` casts are identities here since `year`/`month` are `Int`). -/
def load_gee_export (df : DataFrame) : Except (List String) DataFrame :=
  if (missingCols df).isEmpty then .ok df else .error (missingCols df)

/-- Zero-padded two-digit month, the embedding of Python's `f"{m:02d}"`
for the month values that occur. -/
def pad2 (m : Int) : String :=
  if 0 ≤ m && m < 10 then "0" ++ toString m else toString m

/-- The `f"{year}_{month:02d}"` filename fragment. -/
def monthStr (year month : Int) : String :=
  toString year ++ "_" ++ pad2 month

/-- The category → filename patterns of `load_monthly_exports`. -/
def patterns (year month : Int) : List (String × String) :=
  [("ndvi_evi", "ndvi_evi_" ++ monthStr year month ++ ".csv"),
   ("fire", "fire_burn_" ++ monthStr year month ++ ".csv"),
   ("water", "water_ndwi_" ++ monthStr year month ++ ".csv"),
   ("climate", "climate_" ++ monthStr year month ++ ".csv")]

/-- The on-disk world: which filename holds which table. -/
def FileSystem := String → Option DataFrame

/-- The loop body of `load_monthly_exports` over a pattern list: a present
file is loaded (a schema failure propagates, as the uncaught `ValueError`
does); an absent file is skipped and its `logger.warning` message recorded. -/
def loadFiles (fs : FileSystem) :
    List (String × String) → Except (List String) (List (String × DataFrame) × List String)
  | [] => .ok ([], [])
  | (key, filename) :: rest =>
    match fs filename with
    | some t =>
      match load_gee_export t with
      | .ok df => (loadFiles fs rest).map (fun p => ((key, df) :: p.1, p.2))
      | .error e => .error e
    | none =>
      (loadFiles fs rest).map (fun p => (p.1, ("Missing export: " ++ filename) :: p.2))

/-- Embedding of `load_monthly_exports`. -/
def load_monthly_exports (fs : FileSystem) (year month : Int) :
    Except (List String) (List (String × DataFrame) × List String) :=
  loadFiles fs (patterns year month)

-- ===========================================================================
-- DATA QUALITY CHECKS  (validate_data_quality)
-- ===========================================================================

/-- One entry of `quality["checks"]`. -/
structure QualityCheck where
  dataset : String
  records : Nat
  null_pct : Option ℚ
  zones_present : List String
  status : String
  note : Option String
deriving Repr, DecidableEq

/-- The quality report returned by `validate_data_quality`. -/
structure QualityReport where
  timestamp : String
  checks : List QualityCheck
  overall_status : String
deriving Repr, DecidableEq

/-- The `ZONE_NAMES` display names (module constant, lines 42-46). -/
def expectedZones : List String := ["Usangu GR", "Ihefu Core", "Nyerere NP"]

/-- The value of `round(df.isnull().mean().mean() * 100, 1)`: the fraction
of null cells over all cells as a percentage rounded to one decimal
(`none` for the NaN produced on an empty table). -/
def nullPct (df : DataFrame) : Option ℚ :=
  if df.rows.length = 0 || df.columns.length = 0 then none
  else
    let nulls := (df.rows.map (fun r => (df.columns.filter (cellIsNull r)).length)).sum
    some (pyRound ((nulls : ℚ) / (df.rows.length * df.columns.length) * 100) 1)

/-- The distinct zones of a table, `df["zone"].unique().tolist()`. -/
def zonesPresent (df : DataFrame) : List String :=
  uniqueFirst (df.rows.map (·.zone))

/-- The expected zones absent from a table. -/
def missingZones (df : DataFrame) : List String :=
  expectedZones.filter (fun z => ¬ (zonesPresent df).contains z)

/-- The high-null-rate note string of line 115. -/
def highNullNote (p : ℚ) : String :=
  "High null rate (" ++ toString p ++ "%) — likely cloud cover"

/-- The missing-zones note string of line 123. -/
def missingZonesNote (missing : List String) : String :=
  "Missing zones: " ++ toString missing

/-- The per-dataset check of `validate_data_quality` (loop body, lines
103-125): flag a null rate strictly above 30, then flag missing zones,
the second flag overwriting the first note. -/
def mkCheck (key : String) (df : DataFrame) : QualityCheck :=
  let base : QualityCheck :=
    { dataset := key, records := df.rows.length, null_pct := nullPct df,
      zones_present := zonesPresent df, status := "PASS", note := none }
  let c1 :=
    match nullPct df with
    | some p =>
      if 30 < p then { base with status := "WARNING", note := some (highNullNote p) }
      else base
    | none => base
  if ¬ (missingZones df).isEmpty then
    { c1 with status := "WARNING", note := some (missingZonesNote (missingZones df)) }
  else c1

/-- Embedding of `validate_data_quality`; `now` is the
`datetime.now(timezone.utc).isoformat()` taken at line 98. -/
def validate_data_quality (now : String) (datasets : List (String × DataFrame)) :
    QualityReport :=
  let checks := datasets.map (fun kv => mkCheck kv.1 kv.2)
  { timestamp := now, checks := checks,
    overall_status := if checks.any (fun c => c.status ≠ "PASS") then "WARNING" else "PASS" }

-- ===========================================================================
-- INDICATOR COMPUTATION  (compute_deviations)
-- ===========================================================================

/-- One record of the `results` list built by `compute_deviations`.
`current`/`baseline` are rounded to 4 decimals (`none` = NaN);
`deviation_pct` is rounded to 1 decimal (`none` = the Python `None`). -/
structure DevRecord where
  zone : String
  indicator : String
  current : Option ℚ
  baseline : Option ℚ
  deviation_pct : Option ℚ
deriving Repr, DecidableEq

/-- The rows whose indicator contains "current" (case-insensitive). -/
def currentRows (df : DataFrame) : List Row :=
  df.rows.filter (fun r => strContains (strToLower r.indicator) "current")

/-- The rows whose indicator contains "baseline" (case-insensitive). -/
def baselineRows (df : DataFrame) : List Row :=
  df.rows.filter (fun r => strContains (strToLower r.indicator) "baseline")

/-- The inner loop of `compute_deviations` for one zone: skip the zone
when either selection is empty, otherwise emit one record per numeric
column other than year/month.  A zero or NaN baseline mean (and a NaN
current mean) yields `deviation_pct = none`, never a computed number. -/
def devsForZone (df : DataFrame) (zone : String) : List DevRecord :=
  let z_current := (currentRows df).filter (fun r => r.zone = zone)
  let z_baseline := (baselineRows df).filter (fun r => r.zone = zone)
  if z_current.isEmpty || z_baseline.isEmpty then []
  else
    (numericCols df).filterMap (fun col =>
      if col = "year" || col = "month" then none
      else
        let c_val := colMean z_current col
        let b_val := colMean z_baseline col
        let dev : Option ℚ :=
          match b_val with
          | some b =>
            if b ≠ 0 then
              match c_val with
              | some c => some (pyRound ((c - b) / |b| * 100) 1)
              | none => none
            else none
          | none => none
        some { zone := zone, indicator := col,
               current := c_val.map (pyRound · 4),
               baseline := b_val.map (pyRound · 4),
               deviation_pct := dev })

/-- Embedding of `compute_deviations`. -/
def compute_deviations (df : DataFrame) : List DevRecord :=
  (zonesPresent df).flatMap (devsForZone df)

-- ===========================================================================
-- ALERT DETECTION  (detect_alerts)
-- ===========================================================================

/-- The NDVI/EVI alert thresholds.  Modelled from the spec: the repository's
`config/zones.json` (read into `ZONES_CONFIG` at line 36 and consulted as
`alert_thresholds.ndvi_evi_high.deviation_pct` /
`alert_thresholds.ndvi_evi_moderate.deviation_pct`) is not under `src/`, so
the configuration document is carried as an explicit parameter, per the
spec's interface description of the two required negative thresholds. -/
structure Thresholds where
  ndvi_evi_high : ℚ
  ndvi_evi_moderate : ℚ
deriving Repr, DecidableEq

/-- One alert dictionary.  Keys a given alert variant does not carry in the
Python dict (and the explicit `None` escalation) are `none` here. -/
structure Alert where
  zone : String
  indicator : String
  severity : String
  deviation_pct : Option ℚ := none
  current : Option ℚ := none
  baseline : Option ℚ := none
  detail : Option String := none
  escalation : Option String := none
deriving Repr, DecidableEq

/-- The NDVI/EVI branch of `detect_alerts` (lines 183-217) for one
deviation record: threshold classification with `<=` on both bounds, then
the Ihefu Core escalation of a MODERATE result. -/
def ndviAlert (thr : Thresholds) (rec : DevRecord) : Option Alert :=
  let indicator := rec.indicator
  let is_ndvi := strContains indicator "NDVI" && ! strContains indicator "stdDev"
  let is_evi := strContains indicator "EVI" && ! strContains indicator "stdDev"
  if is_ndvi || is_evi then
    match rec.deviation_pct with
    | some dev =>
      let zone := rec.zone
      let indicator_label := if is_ndvi then "NDVI" else "EVI"
      let sev : Option String :=
        if dev ≤ thr.ndvi_evi_high then some "HIGH"
        else if dev ≤ thr.ndvi_evi_moderate then some "MODERATE"
        else none
      match sev with
      | none => none
      | some severity =>
        let esc : String × Option String :=
          if zone = "Ihefu Core" && severity = "MODERATE" then
            ("HIGH", some "Escalated: MODERATE in Ihefu Core -> HIGH")
          else (severity, none)
        some { zone := zone, indicator := indicator_label, severity := esc.1,
               deviation_pct := some dev, current := rec.current,
               baseline := rec.baseline, escalation := esc.2 }
    | none => none
  else none

/-- Whether a fire-dataset column name is scanned for detections
(`"count" in c.lower() or "T21" in c`, line 223). -/
def fireColMatch (c : String) : Bool :=
  strContains (strToLower c) "count" || strContains c "T21"

/-- The fire branch of `detect_alerts` (lines 222-232) for one row: one
HIGH alert per matching column holding a present positive value. -/
def fireAlertsForRow (cols : List String) (r : Row) : List Alert :=
  (cols.filter fireColMatch).filterMap (fun col =>
    match r.getNum col with
    | some v =>
      if 0 < v then
        some { zone := r.zone, indicator := "Active Fire", severity := "HIGH",
               detail := some ("Fire detections: " ++ toString ⌊v⌋),
               escalation := none }
      else none
    | none => none)

/-- All fire alerts of a fire dataset. -/
def fireAlerts (df : DataFrame) : List Alert :=
  df.rows.flatMap (fireAlertsForRow df.columns)

/-- The LST detail string of line 253 (float formatting rendered via the
exact one-decimal rounding). -/
def lstDetail (anomaly : ℚ) : String :=
  "LST anomaly: +" ++ toString (pyRound anomaly 1) ++ " degC above baseline"

/-- The climate branch of `detect_alerts` (lines 235-254) for one
deviation record: a rainfall-deficit alert, then an LST-anomaly alert.
A NaN deviation or a NaN current/baseline never fires (in Python the NaN
comparison is False). -/
def climateAlertsForRec (rec : DevRecord) : List Alert :=
  (if strContains (strToLower rec.indicator) "rainfall" then
    match rec.deviation_pct with
    | some d =>
      if d ≤ -40 then
        [{ zone := rec.zone, indicator := "Rainfall Deficit", severity := "HIGH",
           deviation_pct := some d,
           detail := some "Drought watch — >40% deficit vs 30-yr mean" }]
      else []
    | none => []
  else []) ++
  (if strContains rec.indicator "LST" then
    match rec.current, rec.baseline with
    | some c, some b =>
      if 3 < c - b then
        [{ zone := rec.zone, indicator := "Land Surface Temperature",
           severity := "MODERATE", detail := some (lstDetail (c - b)) }]
      else []
    | _, _ => []
  else [])

/-- Embedding of `detect_alerts`: the NDVI/EVI alerts, then the fire
alerts, then the climate alerts, in append order. -/
def detect_alerts (thr : Thresholds) (datasets : List (String × DataFrame))
    (deviations : List DevRecord) : List Alert :=
  deviations.filterMap (ndviAlert thr)
    ++ (match List.lookup "fire" datasets with
        | some df => fireAlerts df
        | none => [])
    ++ deviations.flatMap climateAlertsForRec

-- ===========================================================================
-- STRUCTURED OUTPUT  (compile_monthly_dataset)
-- ===========================================================================

/-- The `metadata` block of the output document. -/
structure Metadata where
  report_period : String
  generated_at : String
  prepared_by : String
  organisation : String
  boundary_status : String
  crs_analysis : String
deriving Repr, DecidableEq

/-- The persisted monthly document. -/
structure MonthlyOutput where
  metadata : Metadata
  data_quality : QualityReport
  deviations : List DevRecord
  alerts : List Alert
  raw_datasets : List (String × DataFrame)
deriving Repr, DecidableEq

/-- Embedding of `compile_monthly_dataset`: load (a schema error
propagates), return `none` when no datasets loaded, else validate, compute
deviations for the ndvi_evi and climate tables, classify alerts and build
the document.  `now` stands for the run's `datetime.now` timestamps
(quality report line 98 and `generated_at` line 293). -/
def compile_monthly_dataset (thr : Thresholds) (fs : FileSystem)
    (year month : Int) (now : String) : Except (List String) (Option MonthlyOutput) :=
  match load_monthly_exports fs year month with
  | .error e => .error e
  | .ok (datasets, _warnings) =>
    if datasets.isEmpty then .ok none
    else
      let quality := validate_data_quality now datasets
      let devs :=
        (match List.lookup "ndvi_evi" datasets with
         | some df => compute_deviations df
         | none => [])
        ++ (match List.lookup "climate" datasets with
            | some df => compute_deviations df
            | none => [])
      let alerts := detect_alerts thr datasets devs
      .ok (some
        { metadata :=
            { report_period := toString year ++ "-" ++ pad2 month,
              generated_at := now,
              prepared_by := "Ernest Moyo / 7Square Inc.",
              organisation := "Six Rivers Africa",
              boundary_status := "PLACEHOLDER",
              crs_analysis := "EPSG:32736" },
          data_quality := quality,
          deviations := devs,
          alerts := alerts,
          raw_datasets := datasets })

-- ===========================================================================
-- CONCRETE EXAMPLE DATA (used by the closed witness / counterexample proofs)
-- ===========================================================================

/-- A sample thresholds document with the spec's example values
`ndvi_evi_high = -25`, `ndvi_evi_moderate = -15`. -/
def thrEx : Thresholds := ⟨-25, -15⟩

/-- A synthetic NDVI deviation record with a chosen zone and deviation. -/
def sampleNdviDev (zone : String) (d : ℚ) : DevRecord :=
  ⟨zone, "NDVI_mean", some 1, some 1, some d⟩

/-- An LST deviation record for the Ihefu Core zone with a +5 °C anomaly. -/
def devLSTIhefu : DevRecord := ⟨"Ihefu Core", "LST_Day_mean", some 30, some 25, none⟩

/-- An NDVI deviation record for Ihefu Core in the moderate band (-18 %). -/
def devNdviIhefu : DevRecord := ⟨"Ihefu Core", "NDVI_mean", some 1, some 1, some (-18)⟩

/-- A minimal valid export table: one Usangu GR row, the required columns only. -/
def dfOneRow : DataFrame :=
  ⟨["zone", "indicator", "year", "month"], [⟨"Usangu GR", "x_current", 2024, 5, []⟩]⟩

/-- A disk holding only a valid climate file for 2024-05. -/
def fsClimateOnly : FileSystem :=
  fun fn => if fn = "climate_2024_05.csv" then some dfOneRow else none

/-- A table whose header lacks the required `zone` column. -/
def dfNoZone : DataFrame := ⟨["indicator", "year", "month"], []⟩

/-- A disk holding a schema-broken ndvi_evi file and a valid climate file
for 2024-05. -/
def fsBadNdvi : FileSystem :=
  fun fn =>
    if fn = "ndvi_evi_2024_05.csv" then some dfNoZone
    else if fn = "climate_2024_05.csv" then some dfOneRow
    else none

/-- A fire table with a single Nyerere NP row holding `count = 3`. -/
def fireDFex : DataFrame :=
  ⟨["zone", "indicator", "year", "month", "count"],
   [⟨"Nyerere NP", "fire", 2024, 5, [("count", some 3)]⟩]⟩

/-- An ndvi_evi table for one zone with a normal column and a column whose
baseline mean is zero. -/
def dfDevEx : DataFrame :=
  ⟨["zone", "indicator", "year", "month", "NDVI_mean", "Z_mean"],
   [⟨"Usangu GR", "ndvi_current", 2024, 5, [("NDVI_mean", some (42/100)), ("Z_mean", some 5)]⟩,
    ⟨"Usangu GR", "ndvi_baseline", 2024, 5, [("NDVI_mean", some (6/10)), ("Z_mean", some 0)]⟩]⟩

/-- A table where Usangu GR has only current rows (no baseline) while
Nyerere NP has both. -/
def dfSkipEx : DataFrame :=
  ⟨["zone", "indicator", "year", "month", "NDVI_mean"],
   [⟨"Usangu GR", "ndvi_current", 2024, 5, [("NDVI_mean", some 1)]⟩,
    ⟨"Nyerere NP", "ndvi_current", 2024, 5, [("NDVI_mean", some (1/2))]⟩,
    ⟨"Nyerere NP", "ndvi_baseline", 2024, 5, [("NDVI_mean", some 1)]⟩]⟩

/-- Three rows covering all three zones, ten columns, nine null cells:
a null rate of exactly 30.0 %. -/
def dfNull30 : DataFrame :=
  ⟨["zone", "indicator", "year", "month", "e1", "e2", "e3", "e4", "e5", "e6"],
   [⟨"Usangu GR", "x", 2024, 5, [("e1", some 1), ("e2", some 1), ("e3", some 1)]⟩,
    ⟨"Ihefu Core", "x", 2024, 5, [("e1", some 1), ("e2", some 1), ("e3", some 1)]⟩,
    ⟨"Nyerere NP", "x", 2024, 5, [("e1", some 1), ("e2", some 1), ("e3", some 1)]⟩]⟩

/-- Same shape with twelve null cells: a null rate of 40.0 %. -/
def dfNull40 : DataFrame :=
  ⟨["zone", "indicator", "year", "month", "e1", "e2", "e3", "e4", "e5", "e6"],
   [⟨"Usangu GR", "x", 2024, 5, [("e1", some 1), ("e2", some 1)]⟩,
    ⟨"Ihefu Core", "x", 2024, 5, [("e1", some 1), ("e2", some 1)]⟩,
    ⟨"Nyerere NP", "x", 2024, 5, [("e1", some 1), ("e2", some 1)]⟩]⟩

/-- One Usangu GR row, ten columns, four null cells (40 %), two zones
missing: triggers both quality flags at once. -/
def dfBothFlags : DataFrame :=
  ⟨["zone", "indicator", "year", "month", "e1", "e2", "e3", "e4", "e5", "e6"],
   [⟨"Usangu GR", "x", 2024, 5, [("e1", some 1), ("e2", some 1)]⟩]⟩

/-- The output of a compilation run, with the error and no-data cases
collapsed to `none` (used to compare two concrete runs). -/
def runClimateOnly (t : String) : Option MonthlyOutput :=
  match compile_monthly_dataset thrEx fsClimateOnly 2024 5 t with
  | .ok o => o
  | .error _ => none

/-- Clear the `generated_at` metadata field (the one field the idempotence
claim allows to differ). -/
def stripGeneratedAt (o : MonthlyOutput) : MonthlyOutput :=
  { o with metadata := { o.metadata with generated_at := "" } }

/-- Clear both run-time timestamps: `metadata.generated_at` and
`data_quality.timestamp`. -/
def stripRunTimestamps (o : MonthlyOutput) : MonthlyOutput :=
  { stripGeneratedAt o with data_quality := { o.data_quality with timestamp := "" } }

/-- The escalated HIGH alert the classifier emits for a MODERATE-band NDVI
deviation in Ihefu Core. -/
def escAlertEx : Alert :=
  { zone := "Ihefu Core", indicator := "NDVI", severity := "HIGH",
    deviation_pct := some (-18), current := some 1, baseline := some 1,
    escalation := some "Escalated: MODERATE in Ihefu Core -> HIGH" }

/-- The zero-baseline record that `compute_deviations` emits for
`dfDevEx`. -/
def recZeroBase : DevRecord := ⟨"Usangu GR", "Z_mean", some 5, some 0, none⟩

-- ===========================================================================
-- THEOREMS
-- ===========================================================================

/-- Evaluation helper: `nullPct` from precomputed counts. -/
theorem nullPct_eq (df : DataFrame) (n r c : ℕ)
    (hn : (df.rows.map (fun row => (df.columns.filter (cellIsNull row)).length)).sum = n)
    (hr : df.rows.length = r) (hc : df.columns.length = c)
    (h0 : r ≠ 0) (h0c : c ≠ 0) :
    nullPct df = some (pyRound ((n : ℚ) / (r * c) * 100) 1) := by
  simp only [nullPct, hn, hr, hc, h0, h0c, if_false]
  norm_num

/-- Claim C10: when a dataset both exceeds the 30 % null-rate threshold and
misses an expected zone, the check's single note holds only the
missing-zones message (the later check overwrites the null-rate note) while
the status stays WARNING. -/
theorem quality_note_overwrite (key : String) (df : DataFrame) (p : ℚ)
    (h1 : nullPct df = some p) (h2 : 30 < p) (h3 : ¬ (missingZones df).isEmpty) :
    (mkCheck key df).status = "WARNING" ∧
    (mkCheck key df).note = some (missingZonesNote (missingZones df)) := by
  simp only [mkCheck, h1]
  rw [if_pos h2, if_pos h3]
  exact ⟨rfl, rfl⟩

theorem quality_note_overwrite_witness :
    nullPct dfBothFlags = some 40 ∧ (30 : ℚ) < 40 ∧ ¬ (missingZones dfBothFlags).isEmpty ∧
    (mkCheck "water" dfBothFlags).status = "WARNING" ∧
    (mkCheck "water" dfBothFlags).note =
      some (missingZonesNote (missingZones dfBothFlags)) := by
  have h1 : nullPct dfBothFlags = some 40 := by
    rw [nullPct_eq dfBothFlags 4 1 10 (by decide) (by decide) (by decide) (by decide) (by decide)]
    norm_num [pyRound, roundHalfEven]
  have h4 := quality_note_overwrite "water" dfBothFlags 40 h1 (by norm_num) (by decide)
  exact ⟨h1, by norm_num, by decide, h4⟩

/-- Helper: a null rate strictly above 30 flags the check WARNING with a
note, whatever the zone coverage. -/
theorem mkCheck_highNull_warning (key : String) (df : DataFrame) (p : ℚ)
    (h1 : nullPct df = some p) (h2 : 30 < p) :
    (mkCheck key df).status = "WARNING" ∧ (mkCheck key df).note ≠ none := by
  simp only [mkCheck, h1]
  rw [if_pos h2]
  by_cases hm : (missingZones df).isEmpty
  · rw [if_neg (by simp [hm])]
    exact ⟨rfl, by simp⟩
  · rw [if_pos (by simp [hm])]
    exact ⟨rfl, by simp⟩

/-- Claim C6: the null-rate flag is strict — a rounded null percentage of
exactly 30.0 keeps PASS (when all zones are present), any value above 30
flags WARNING with a note and downgrades the overall status. -/
theorem null_rate_boundary (key : String) (df : DataFrame) (now : String)
    (datasets : List (String × DataFrame)) :
    (nullPct df = some 30 → (missingZones df).isEmpty → (mkCheck key df).status = "PASS") ∧
    (∀ p, nullPct df = some p → 30 < p →
       (mkCheck key df).status = "WARNING" ∧ (mkCheck key df).note ≠ none) ∧
    (∀ p, (key, df) ∈ datasets → nullPct df = some p → 30 < p →
       (validate_data_quality now datasets).overall_status = "WARNING") := by
  refine ⟨?_, ?_, ?_⟩
  · intro h1 hmz
    simp only [mkCheck, h1]
    rw [if_neg (by norm_num : ¬ (30:ℚ) < 30), if_neg (by simp [hmz])]
  · intro p h1 h2
    exact mkCheck_highNull_warning key df p h1 h2
  · intro p hmem h1 h2
    have hs := (mkCheck_highNull_warning key df p h1 h2).1
    have hcm : mkCheck key df ∈ datasets.map (fun kv => mkCheck kv.1 kv.2) :=
      List.mem_map_of_mem _ hmem
    simp only [validate_data_quality]
    rw [if_pos]
    exact List.any_eq_true.mpr ⟨mkCheck key df, hcm, by simp [hs]⟩

theorem null_rate_boundary_witness :
    (mkCheck "ndvi_evi" dfNull30).status = "PASS" ∧
    (mkCheck "ndvi_evi" dfNull40).status = "WARNING" ∧
    (mkCheck "ndvi_evi" dfNull40).note ≠ none ∧
    (validate_data_quality "t" [("ndvi_evi", dfNull40)]).overall_status = "WARNING" := by
  have e30 : nullPct dfNull30 = some 30 := by
    rw [nullPct_eq dfNull30 9 3 10 (by decide) (by decide) (by decide) (by decide) (by decide)]
    norm_num [pyRound, roundHalfEven]
  have e40 : nullPct dfNull40 = some 40 := by
    rw [nullPct_eq dfNull40 12 3 10 (by decide) (by decide) (by decide) (by decide) (by decide)]
    norm_num [pyRound, roundHalfEven]
  have h := null_rate_boundary "ndvi_evi" dfNull40 "t" [("ndvi_evi", dfNull40)]
  exact ⟨(null_rate_boundary "ndvi_evi" dfNull30 "t" []).1 e30 (by decide),
         (h.2.1 40 e40 (by norm_num)).1, (h.2.1 40 e40 (by norm_num)).2,
         h.2.2 40 (by simp) e40 (by norm_num)⟩

/-- Claim C5: both NDVI/EVI threshold comparisons are inclusive — a
deviation exactly at `ndvi_evi_high` is HIGH, exactly at
`ndvi_evi_moderate` is MODERATE, and above `ndvi_evi_moderate` yields no
alert at all. -/
theorem ndvi_threshold_boundary (thr : Thresholds) (zone : String) (d : ℚ) :
    (d = thr.ndvi_evi_high →
       detect_alerts thr [] [sampleNdviDev zone d] =
         [{ zone := zone, indicator := "NDVI", severity := "HIGH",
            deviation_pct := some d, current := some 1, baseline := some 1,
            escalation := none }]) ∧
    (thr.ndvi_evi_high < d → d = thr.ndvi_evi_moderate → zone ≠ "Ihefu Core" →
       detect_alerts thr [] [sampleNdviDev zone d] =
         [{ zone := zone, indicator := "NDVI", severity := "MODERATE",
            deviation_pct := some d, current := some 1, baseline := some 1,
            escalation := none }]) ∧
    (thr.ndvi_evi_high < d → thr.ndvi_evi_moderate < d →
       detect_alerts thr [] [sampleNdviDev zone d] = []) := by
  have sN : strContains "NDVI_mean" "NDVI" = true := by decide
  have sD : strContains "NDVI_mean" "stdDev" = false := by decide
  have sR : strContains (strToLower "NDVI_mean") "rainfall" = false := by decide
  have sL : strContains "NDVI_mean" "LST" = false := by decide
  refine ⟨?_, ?_, ?_⟩
  · intro h
    simp [detect_alerts, ndviAlert, sampleNdviDev, climateAlertsForRec,
          sN, sD, sR, sL, le_of_eq h]
  · intro h1 h2 h3
    simp [detect_alerts, ndviAlert, sampleNdviDev, climateAlertsForRec,
          sN, sD, sR, sL, not_le.mpr h1, le_of_eq h2, h3]
  · intro h1 h2
    simp [detect_alerts, ndviAlert, sampleNdviDev, climateAlertsForRec,
          sN, sD, sR, sL, not_le.mpr h1, not_le.mpr h2]

theorem ndvi_threshold_boundary_witness :
    detect_alerts thrEx [] [sampleNdviDev "Usangu GR" (-25)] =
      [{ zone := "Usangu GR", indicator := "NDVI", severity := "HIGH",
         deviation_pct := some (-25), current := some 1, baseline := some 1,
         escalation := none }] ∧
    detect_alerts thrEx [] [sampleNdviDev "Usangu GR" (-15)] =
      [{ zone := "Usangu GR", indicator := "NDVI", severity := "MODERATE",
         deviation_pct := some (-15), current := some 1, baseline := some 1,
         escalation := none }] ∧
    detect_alerts thrEx [] [sampleNdviDev "Usangu GR" (-10)] = [] := by
  refine ⟨(ndvi_threshold_boundary thrEx "Usangu GR" (-25)).1 (by norm_num [thrEx]),
          (ndvi_threshold_boundary thrEx "Usangu GR" (-15)).2.1
            (by norm_num [thrEx]) (by norm_num [thrEx]) (by decide),
          (ndvi_threshold_boundary thrEx "Usangu GR" (-10)).2.2
            (by norm_num [thrEx]) (by norm_num [thrEx])⟩

/-- Helper: every alert the NDVI/EVI branch emits is labelled NDVI or EVI. -/
theorem ndviAlert_indicator (thr : Thresholds) (rec : DevRecord) (a : Alert)
    (h : ndviAlert thr rec = some a) :
    a.indicator = "NDVI" ∨ a.indicator = "EVI" := by
  simp only [ndviAlert] at h
  split at h
  · split at h
    · split at h
      · exact absurd h (by simp)
      · cases h
        dsimp only
        split
        · exact Or.inl rfl
        · exact Or.inr rfl
    · exact absurd h (by simp)
  · exact absurd h (by simp)

/-- Helper: every fire-branch alert is a HIGH "Active Fire" alert. -/
theorem fireAlertsForRow_indicator (cols : List String) (r : Row) (a : Alert)
    (h : a ∈ fireAlertsForRow cols r) :
    a.indicator = "Active Fire" ∧ a.severity = "HIGH" := by
  simp only [fireAlertsForRow, List.mem_filterMap] at h
  obtain ⟨col, _, hcol⟩ := h
  split at hcol
  · split at hcol
    · cases hcol
      exact ⟨rfl, rfl⟩
    · exact absurd hcol (by simp)
  · exact absurd hcol (by simp)

/-- Helper: every climate-branch alert is a rainfall-deficit or an LST alert. -/
theorem climateAlertsForRec_indicator (rec : DevRecord) (a : Alert)
    (h : a ∈ climateAlertsForRec rec) :
    a.indicator = "Rainfall Deficit" ∨ a.indicator = "Land Surface Temperature" := by
  simp only [climateAlertsForRec, List.mem_append] at h
  rcases h with h | h
  · left
    split at h
    · split at h
      · split at h
        · simp only [List.mem_singleton] at h
          subst h
          rfl
        · exact absurd h (by simp)
      · exact absurd h (by simp)
    · exact absurd h (by simp)
  · right
    split at h
    · split at h
      · split at h
        · simp only [List.mem_singleton] at h
          subst h
          rfl
        · exact absurd h (by simp)
      · exact absurd h (by simp)
    · exact absurd h (by simp)

/-- Helper: an NDVI/EVI alert whose zone is Ihefu Core is HIGH, and when its
deviation lies strictly above the HIGH threshold (base severity MODERATE)
it carries an escalation note. -/
theorem ndviAlert_ihefu (thr : Thresholds) (rec : DevRecord) (a : Alert)
    (h : ndviAlert thr rec = some a) (hz : a.zone = "Ihefu Core") :
    a.severity = "HIGH" ∧
    (∀ d, a.deviation_pct = some d → thr.ndvi_evi_high < d → a.escalation ≠ none) := by
  simp only [ndviAlert] at h
  split at h
  · cases hdev : rec.deviation_pct with
    | none =>
      rw [hdev] at h
      exact absurd h (by simp)
    | some dev =>
      rw [hdev] at h
      dsimp only at h
      by_cases h1 : dev ≤ thr.ndvi_evi_high
      · rw [if_pos h1] at h
        injection h with h'
        subst h'
        simp only at hz
        refine ⟨by simp, ?_⟩
        intro d hd hgt
        simp only [Option.some.injEq] at hd
        subst hd
        exact absurd h1 (not_le.mpr hgt)
      · rw [if_neg h1] at h
        by_cases h2 : dev ≤ thr.ndvi_evi_moderate
        · rw [if_pos h2] at h
          injection h with h'
          subst h'
          simp only at hz
          simp only [hz] at *
          refine ⟨by simp, ?_⟩
          intro d hd hgt
          simp
        · rw [if_neg h2] at h
          exact absurd h (by simp)
  · exact absurd h (by simp)

/-- Claim C1 (amended): the Ihefu Core escalation holds for the NDVI/EVI
alert family — every NDVI/EVI alert for Ihefu Core is HIGH, with a non-null
escalation note whenever its base severity was MODERATE (deviation strictly
above the HIGH threshold).  The LST branch emits MODERATE Ihefu Core alerts
without escalation, so the invariant does not extend to all alerts. -/
theorem ihefu_escalation_ndvi_evi (thr : Thresholds)
    (datasets : List (String × DataFrame)) (devs : List DevRecord) (a : Alert)
    (ha : a ∈ detect_alerts thr datasets devs)
    (hind : a.indicator = "NDVI" ∨ a.indicator = "EVI")
    (hzone : a.zone = "Ihefu Core") :
    a.severity = "HIGH" ∧
    (∀ d, a.deviation_pct = some d → thr.ndvi_evi_high < d → a.escalation ≠ none) := by
  simp only [detect_alerts, List.mem_append] at ha
  rcases ha with (ha | ha) | ha
  · obtain ⟨rec, _, heq⟩ := List.mem_filterMap.mp ha
    exact ndviAlert_ihefu thr rec a heq hzone
  · exfalso
    rcases hfire : List.lookup "fire" datasets with _ | df
    · rw [hfire] at ha
      simp at ha
    · rw [hfire] at ha
      obtain ⟨r, _, hr⟩ := List.mem_flatMap.mp ha
      have := (fireAlertsForRow_indicator _ r a hr).1
      rcases hind with hind | hind <;> rw [hind] at this <;> simp at this
  · exfalso
    obtain ⟨rec, _, hr⟩ := List.mem_flatMap.mp ha
    have := climateAlertsForRec_indicator rec a hr
    rcases hind with hind | hind <;> rw [hind] at this <;> simp at this

/-- Claim C1, counterexample to the universal form: the LST branch emits a
MODERATE alert for Ihefu Core with no escalation. -/
theorem ihefu_moderate_lst_alert_exists :
    ∃ a ∈ detect_alerts thrEx [] [devLSTIhefu],
      a.zone = "Ihefu Core" ∧ a.severity = "MODERATE" ∧ a.escalation = none := by
  have hlist : detect_alerts thrEx [] [devLSTIhefu] =
      [{ zone := "Ihefu Core", indicator := "Land Surface Temperature",
         severity := "MODERATE", detail := some (lstDetail 5) }] := by
    have s1 : strContains "LST_Day_mean" "NDVI" = false := by decide
    have s2 : strContains "LST_Day_mean" "EVI" = false := by decide
    have s3 : strContains (strToLower "LST_Day_mean") "rainfall" = false := by decide
    have s4 : strContains "LST_Day_mean" "LST" = true := by decide
    norm_num [detect_alerts, ndviAlert, climateAlertsForRec, devLSTIhefu, s1, s2, s3, s4]
  rw [hlist]
  exact ⟨_, List.mem_singleton.mpr rfl, rfl, rfl, rfl⟩

theorem ihefu_escalation_ndvi_evi_witness :
    escAlertEx ∈ detect_alerts thrEx [] [devNdviIhefu] ∧
    escAlertEx.severity = "HIGH" ∧ escAlertEx.escalation ≠ none := by
  have ha : escAlertEx ∈ detect_alerts thrEx [] [devNdviIhefu] := by decide
  have h := ihefu_escalation_ndvi_evi thrEx [] [devNdviIhefu] escAlertEx ha
    (Or.inl rfl) rfl
  exact ⟨ha, h.1, h.2 (-18) rfl (by norm_num [thrEx])⟩

/-- Claim C7: the Active Fire alerts of a run are exactly one HIGH alert
per (row, matched column) of the fire dataset whose value is present and
positive, with detail "Fire detections: n" for the truncated value; other
cells emit nothing. -/
theorem fire_alerts_characterization (thr : Thresholds)
    (datasets : List (String × DataFrame)) (devs : List DevRecord) (df : DataFrame)
    (hdf : List.lookup "fire" datasets = some df) :
    (detect_alerts thr datasets devs).filter (fun a => a.indicator = "Active Fire") =
      df.rows.flatMap (fun r =>
        (df.columns.filter (fun c =>
            strContains (strToLower c) "count" || strContains c "T21")).filterMap
          (fun col =>
            match r.getNum col with
            | some v =>
              if 0 < v then
                some { zone := r.zone, indicator := "Active Fire", severity := "HIGH",
                       detail := some ("Fire detections: " ++ toString ⌊v⌋),
                       escalation := none }
              else none
            | none => none)) := by
  have h1 : (devs.filterMap (ndviAlert thr)).filter
      (fun a => a.indicator = "Active Fire") = [] := by
    rw [List.filter_eq_nil_iff]
    intro a ha
    obtain ⟨rec, _, heq⟩ := List.mem_filterMap.mp ha
    rcases ndviAlert_indicator thr rec a heq with h | h <;> simp [h]
  have h2 : (fireAlerts df).filter (fun a => a.indicator = "Active Fire") =
      fireAlerts df := by
    rw [List.filter_eq_self]
    intro a ha
    obtain ⟨r, _, hr⟩ := List.mem_flatMap.mp ha
    simp [(fireAlertsForRow_indicator df.columns r a hr).1]
  have h3 : (devs.flatMap climateAlertsForRec).filter
      (fun a => a.indicator = "Active Fire") = [] := by
    rw [List.filter_eq_nil_iff]
    intro a ha
    obtain ⟨rec, _, hr⟩ := List.mem_flatMap.mp ha
    rcases climateAlertsForRec_indicator rec a hr with h | h <;> simp [h]
  simp only [detect_alerts, List.filter_append, hdf, h1, h2, h3,
             List.nil_append, List.append_nil]
  rfl

theorem fire_alerts_characterization_witness :
    List.lookup "fire" [("fire", fireDFex)] = some fireDFex ∧
    (detect_alerts thrEx [("fire", fireDFex)] []).filter
        (fun a => a.indicator = "Active Fire") =
      [{ zone := "Nyerere NP", indicator := "Active Fire", severity := "HIGH",
         detail := some "Fire detections: 3", escalation := none }] := by
  refine ⟨rfl, ?_⟩
  rw [fire_alerts_characterization thrEx [("fire", fireDFex)] [] fireDFex rfl]
  have c1 : strContains (strToLower "zone") "count" = false := by decide
  have c2 : strContains (strToLower "indicator") "count" = false := by decide
  have c3 : strContains (strToLower "year") "count" = false := by decide
  have c4 : strContains (strToLower "month") "count" = false := by decide
  have c5 : strContains (strToLower "count") "count" = true := by decide
  have t1 : strContains "zone" "T21" = false := by decide
  have t2 : strContains "indicator" "T21" = false := by decide
  have t3 : strContains "year" "T21" = false := by decide
  have t4 : strContains "month" "T21" = false := by decide
  norm_num [fireDFex, Row.getNum, List.lookup, c1, c2, c3, c4, c5, t1, t2, t3, t4,
            List.filterMap, (by decide : ("count":String) ≠ "year"),
            (by decide : ("count":String) ≠ "month"),
            (by decide : (("count":String) == "count") = true)]
  decide

/-- Helper: every record of `devsForZone df z` carries zone `z`. -/
theorem devsForZone_zone (df : DataFrame) (z : String) (rec : DevRecord)
    (h : rec ∈ devsForZone df z) : rec.zone = z := by
  simp only [devsForZone] at h
  split at h
  · exact absurd h (by simp)
  · obtain ⟨col, _, heq⟩ := List.mem_filterMap.mp h
    split at heq
    · exact absurd heq (by simp)
    · injection heq with heq
      subst heq
      rfl

/-- Helper: dropping an element whose image is empty does not change a
`flatMap`. -/
theorem flatMap_filter_ne (f : String → List DevRecord) (z : String)
    (h : f z = []) (l : List String) :
    l.flatMap f = (l.filter (fun x => x ≠ z)).flatMap f := by
  induction l with
  | nil => rfl
  | cons x xs ih =>
    by_cases hx : x = z
    · subst hx
      simp [h, ih]
    · simp [hx, ih]

/-- Claim C8: a zone with no current rows or no baseline rows is silently
skipped — no deviation record carries it, and the output equals the
computation that ignores the zone altogether (the calculator is a total
function: nothing is raised). -/
theorem deviation_zone_skip (df : DataFrame) (z : String)
    (hz : z ∈ df.rows.map (·.zone))
    (hemp : ((currentRows df).filter (fun r => r.zone = z)).isEmpty = true ∨
            ((baselineRows df).filter (fun r => r.zone = z)).isEmpty = true) :
    (∀ rec ∈ compute_deviations df, rec.zone ≠ z) ∧
    compute_deviations df =
      ((zonesPresent df).filter (fun x => x ≠ z)).flatMap (devsForZone df) := by
  have hnil : devsForZone df z = [] := by
    simp only [devsForZone]
    rcases hemp with h | h
    · rw [if_pos (by simp [h])]
    · rw [if_pos (by simp [h])]
  constructor
  · intro rec hr hcon
    obtain ⟨z', _, hmem⟩ := List.mem_flatMap.mp hr
    have hzz := devsForZone_zone df z' rec hmem
    rw [hcon] at hzz
    rw [← hzz, hnil] at hmem
    exact absurd hmem (by simp)
  · exact flatMap_filter_ne (devsForZone df) z hnil (zonesPresent df)

theorem deviation_zone_skip_witness :
    ("Usangu GR" ∈ dfSkipEx.rows.map (·.zone)) ∧
    ((baselineRows dfSkipEx).filter (fun r => r.zone = "Usangu GR")).isEmpty = true ∧
    compute_deviations dfSkipEx =
      ((zonesPresent dfSkipEx).filter (fun x => x ≠ "Usangu GR")).flatMap
        (devsForZone dfSkipEx) :=
  ⟨by decide, by decide,
   (deviation_zone_skip dfSkipEx "Usangu GR" (by decide) (Or.inr (by decide))).2⟩

/-- Claim C4: every deviation record's fields come from the zone's current
and baseline column means — `deviation_pct` is the rounded formula value
when the baseline mean is a nonzero number, and null (never an infinity or
another number) when the baseline mean is 0 or NaN. -/
theorem compute_deviations_formula (df : DataFrame) (rec : DevRecord)
    (h : rec ∈ compute_deviations df) :
    rec.current =
      (colMean ((currentRows df).filter (fun r => r.zone = rec.zone)) rec.indicator).map
        (pyRound · 4) ∧
    rec.baseline =
      (colMean ((baselineRows df).filter (fun r => r.zone = rec.zone)) rec.indicator).map
        (pyRound · 4) ∧
    (∀ b, colMean ((baselineRows df).filter (fun r => r.zone = rec.zone)) rec.indicator
        = some b → b ≠ 0 →
      rec.deviation_pct =
        (colMean ((currentRows df).filter (fun r => r.zone = rec.zone)) rec.indicator).map
          (fun c => pyRound ((c - b) / |b| * 100) 1)) ∧
    ((colMean ((baselineRows df).filter (fun r => r.zone = rec.zone)) rec.indicator = none ∨
      colMean ((baselineRows df).filter (fun r => r.zone = rec.zone)) rec.indicator = some 0) →
      rec.deviation_pct = none) := by
  obtain ⟨z, _, hmem⟩ := List.mem_flatMap.mp h
  simp only [devsForZone] at hmem
  split at hmem
  · exact absurd hmem (by simp)
  · obtain ⟨col, _, heq⟩ := List.mem_filterMap.mp hmem
    split at heq
    · exact absurd heq (by simp)
    · injection heq with heq
      subst heq
      refine ⟨rfl, rfl, ?_, ?_⟩
      · intro b hb hb0
        have hb' : colMean ((baselineRows df).filter (fun r => r.zone = z)) col = some b := hb
        dsimp only
        rw [hb']
        dsimp only
        rw [if_pos hb0]
        cases colMean ((currentRows df).filter (fun r => r.zone = z)) col with
        | none => rfl
        | some c => rfl
      · intro hb
        dsimp only
        rcases hb with hb | hb
        · have hb' : colMean ((baselineRows df).filter (fun r => r.zone = z)) col = none := hb
          rw [hb']
        · have hb' : colMean ((baselineRows df).filter (fun r => r.zone = z)) col = some 0 := hb
          rw [hb']
          dsimp only
          rw [if_neg (by simp : ¬ (0 : ℚ) ≠ 0)]

theorem compute_deviations_formula_witness :
    recZeroBase ∈ compute_deviations dfDevEx ∧ recZeroBase.deviation_pct = none := by
  have s1 : strContains (strToLower "ndvi_current") "current" = true := by decide
  have s2 : strContains (strToLower "ndvi_current") "baseline" = false := by decide
  have s3 : strContains (strToLower "ndvi_baseline") "current" = false := by decide
  have s4 : strContains (strToLower "ndvi_baseline") "baseline" = true := by decide
  have hlist : compute_deviations dfDevEx =
      [⟨"Usangu GR", "NDVI_mean", some (21/50), some (3/5), some (-30)⟩, recZeroBase] := by
    norm_num [compute_deviations, devsForZone, zonesPresent, uniqueFirst, currentRows,
      baselineRows, dfDevEx, numericCols, colMean, Row.getNum, List.lookup, recZeroBase,
      s1, s2, s3, s4, pyRound, roundHalfEven, List.filterMap, List.filter,
      (by decide : ("NDVI_mean":String) ≠ "year"), (by decide : ("NDVI_mean":String) ≠ "month"),
      (by decide : ("Z_mean":String) ≠ "year"), (by decide : ("Z_mean":String) ≠ "month"),
      (by decide : (("NDVI_mean":String) == "NDVI_mean") = true),
      (by decide : (("Z_mean":String) == "NDVI_mean") = false),
      (by decide : (("Z_mean":String) == "Z_mean") = true),
      (by norm_num : |(3:ℚ)/5| = 3/5)]
  have hmem : recZeroBase ∈ compute_deviations dfDevEx := by
    rw [hlist]
    simp
  have hb : colMean ((baselineRows dfDevEx).filter
      (fun r => r.zone = recZeroBase.zone)) recZeroBase.indicator = some 0 := by
    norm_num [baselineRows, dfDevEx, colMean, Row.getNum, List.lookup, recZeroBase,
      s1, s2, s3, s4, List.filter,
      (by decide : ("Z_mean":String) ≠ "year"), (by decide : ("Z_mean":String) ≠ "month"),
      (by decide : (("Z_mean":String) == "NDVI_mean") = false),
      (by decide : (("Z_mean":String) == "Z_mean") = true)]
    refine ⟨by simp, Or.inl ?_⟩
    norm_num [List.filterMap, List.lookup,
      (by decide : (("Z_mean":String) == "NDVI_mean") = false),
      (by decide : (("Z_mean":String) == "Z_mean") = true)]
  exact ⟨hmem, (compute_deviations_formula dfDevEx recZeroBase hmem).2.2.2 (Or.inr hb)⟩

/-- Claim C2 (amended): compilation is deterministic in everything except
the two run timestamps — `metadata.generated_at` and
`data_quality.timestamp`.  With both cleared, two runs over the same inputs
produce equal documents. -/
theorem compile_deterministic_up_to_timestamps (thr : Thresholds) (fs : FileSystem)
    (year month : Int) (t1 t2 : String) :
    (compile_monthly_dataset thr fs year month t1).map (Option.map stripRunTimestamps) =
    (compile_monthly_dataset thr fs year month t2).map (Option.map stripRunTimestamps) := by
  cases h : load_monthly_exports fs year month with
  | error e => simp [compile_monthly_dataset, h]
  | ok p =>
    obtain ⟨datasets, ws⟩ := p
    by_cases hd : datasets.isEmpty
    · simp [compile_monthly_dataset, h, hd]
    · simp [compile_monthly_dataset, h, hd, stripRunTimestamps, stripGeneratedAt,
            validate_data_quality, Except.map]

/-- Claim C2, counterexample to the claim as stated: clearing only
`generated_at` does not make two runs equal — the quality report's own
`timestamp` field still differs. -/
theorem compile_quality_timestamp_differs :
    (runClimateOnly "t1").map stripGeneratedAt ≠
    (runClimateOnly "t2").map stripGeneratedAt := by
  intro h
  have e1 : ((runClimateOnly "t1").map stripGeneratedAt).map
      (fun o => o.data_quality.timestamp) = some "t1" := rfl
  have e2 : ((runClimateOnly "t2").map stripGeneratedAt).map
      (fun o => o.data_quality.timestamp) = some "t2" := rfl
  rw [h, e2] at e1
  exact absurd e1 (by decide)

/-- Helper: a present file failing the schema check makes the load loop
raise, whatever the other entries hold. -/
theorem loadFiles_error (fs : FileSystem) (pats : List (String × String))
    (h : ∃ kfn ∈ pats, ∃ df, fs kfn.2 = some df ∧ ¬ (missingCols df).isEmpty) :
    ∃ e, loadFiles fs pats = .error e ∧ e ≠ [] ∧
      ∃ kfn ∈ pats, ∃ df, fs kfn.2 = some df ∧ e = missingCols df := by
  induction pats with
  | nil =>
    obtain ⟨kfn, hk, _⟩ := h
    simp at hk
  | cons p rest ih =>
    obtain ⟨kfn, hk, df, hdf, hmiss⟩ := h
    obtain ⟨k, fn⟩ := p
    rw [List.mem_cons] at hk
    cases hfs : fs fn with
    | none =>
      have hk' : kfn ∈ rest := by
        rcases hk with hk | hk
        · subst hk
          rw [hfs] at hdf
          cases hdf
        · exact hk
      obtain ⟨e, he, hne, kfn', hk'', w⟩ := ih ⟨kfn, hk', df, hdf, hmiss⟩
      exact ⟨e, by simp [loadFiles, hfs, he, Except.map], hne,
             kfn', List.mem_cons_of_mem _ hk'', w⟩
    | some t =>
      by_cases hm : (missingCols t).isEmpty
      · have hk' : kfn ∈ rest := by
          rcases hk with hk | hk
          · subst hk
            rw [hfs] at hdf
            injection hdf with hdf
            subst hdf
            exact absurd hm hmiss
          · exact hk
        obtain ⟨e, he, hne, kfn', hk'', w⟩ := ih ⟨kfn, hk', df, hdf, hmiss⟩
        exact ⟨e, by simp [loadFiles, hfs, load_gee_export, hm, he, Except.map], hne,
               kfn', List.mem_cons_of_mem _ hk'', w⟩
      · refine ⟨missingCols t, by simp [loadFiles, hfs, load_gee_export, hm],
               fun hcon => hm (by simp [hcon]), (k, fn), List.mem_cons_self _ _,
               t, hfs, rfl⟩

/-- Claim C3 (amended): a present category file missing required columns
fails its load with an error naming the missing columns, and that error
always aborts the whole compilation run — even when other categories would
load successfully. -/
theorem schema_error_aborts_run (thr : Thresholds) (fs : FileSystem)
    (year month : Int) (now : String)
    (h : ∃ kfn ∈ patterns year month, ∃ df, fs kfn.2 = some df ∧
         ¬ (missingCols df).isEmpty) :
    ∃ e, compile_monthly_dataset thr fs year month now = .error e ∧ e ≠ [] ∧
      ∃ kfn ∈ patterns year month, ∃ df, fs kfn.2 = some df ∧ e = missingCols df := by
  obtain ⟨e, he, hne, w⟩ := loadFiles_error fs (patterns year month) h
  exact ⟨e, by simp [compile_monthly_dataset, load_monthly_exports, he], hne, w⟩

/-- Claim C3, counterexample to the claim as stated: with a schema-broken
ndvi_evi file, the run aborts even though the climate file loads fine. -/
theorem schema_error_abort_despite_other_category :
    load_gee_export dfOneRow = .ok dfOneRow ∧
    fsBadNdvi "climate_2024_05.csv" = some dfOneRow ∧
    compile_monthly_dataset thrEx fsBadNdvi 2024 5 "t" = .error ["zone"] :=
  ⟨rfl, rfl, rfl⟩

theorem schema_error_aborts_run_witness :
    (fsBadNdvi "ndvi_evi_2024_05.csv" = some dfNoZone ∧
     ¬ (missingCols dfNoZone).isEmpty) ∧
    ∃ e, compile_monthly_dataset thrEx fsBadNdvi 2024 5 "t" = .error e ∧ e ≠ [] ∧
      ∃ kfn ∈ patterns 2024 5, ∃ df, fsBadNdvi kfn.2 = some df ∧
        e = missingCols df := by
  refine ⟨⟨rfl, by decide⟩, schema_error_aborts_run thrEx fsBadNdvi 2024 5 "t" ?_⟩
  exact ⟨("ndvi_evi", "ndvi_evi_2024_05.csv"), by decide, dfNoZone, rfl, by decide⟩

/-- Helper: when every present file passes the schema check, the load loop
returns the present tables keyed by category, in order, plus one warning
per absent file. -/
theorem loadFiles_ok (fs : FileSystem) (pats : List (String × String))
    (hOK : ∀ kfn ∈ pats, ∀ df, fs kfn.2 = some df → (missingCols df).isEmpty) :
    loadFiles fs pats = .ok
      (pats.filterMap (fun kfn => (fs kfn.2).map (fun df => (kfn.1, df))),
       pats.filterMap (fun kfn =>
         match fs kfn.2 with
         | some _ => none
         | none => some ("Missing export: " ++ kfn.2))) := by
  induction pats with
  | nil => rfl
  | cons p rest ih =>
    obtain ⟨k, fn⟩ := p
    have hOK' : ∀ kfn ∈ rest, ∀ df, fs kfn.2 = some df → (missingCols df).isEmpty :=
      fun kfn hk => hOK kfn (List.mem_cons_of_mem _ hk)
    cases hfs : fs fn with
    | none =>
      simp [loadFiles, hfs, ih hOK', Except.map, List.filterMap_cons]
    | some t =>
      have hm := hOK (k, fn) (List.mem_cons_self _ _) t hfs
      simp [loadFiles, hfs, load_gee_export, hm, ih hOK', Except.map,
            List.filterMap_cons]

/-- Helper: two pattern entries with the same category key are the same
entry (the four keys are distinct). -/
theorem patterns_key_inj (year month : Int) (a b : String × String)
    (ha : a ∈ patterns year month) (hb : b ∈ patterns year month)
    (h : a.1 = b.1) : a = b := by
  simp only [patterns, List.mem_cons, List.not_mem_nil, or_false] at ha hb
  rcases ha with ha | ha | ha | ha <;> rcases hb with hb | hb | hb | hb <;>
    subst ha <;> subst hb <;> simp_all

/-- Claim C9: with all present files schema-valid, an absent category file
is not fatal — its category is omitted from the loaded mapping and a
warning is recorded; the compilation produces a document whenever at least
one category file is present, and returns the no-data result exactly when
none is. -/
theorem missing_file_not_fatal (thr : Thresholds) (fs : FileSystem)
    (year month : Int) (now : String)
    (hOK : ∀ kfn ∈ patterns year month, ∀ df, fs kfn.2 = some df →
           (missingCols df).isEmpty) :
    ∃ ds ws, load_monthly_exports fs year month = .ok (ds, ws) ∧
      (∀ kfn ∈ patterns year month, fs kfn.2 = none →
         (∀ df, (kfn.1, df) ∉ ds) ∧ ("Missing export: " ++ kfn.2) ∈ ws) ∧
      ((∀ kfn ∈ patterns year month, fs kfn.2 = none) →
         compile_monthly_dataset thr fs year month now = .ok none) ∧
      ((∃ kfn ∈ patterns year month, (fs kfn.2).isSome) →
         ∃ o, compile_monthly_dataset thr fs year month now = .ok (some o)) := by
  have hload := loadFiles_ok fs (patterns year month) hOK
  refine ⟨_, _, hload, ?_, ?_, ?_⟩
  · intro kfn hk hnone
    constructor
    · intro df hmem
      obtain ⟨kfn', hk', hmap⟩ := List.mem_filterMap.mp hmem
      cases hfs' : fs kfn'.2 with
      | none =>
        rw [hfs'] at hmap
        cases hmap
      | some t =>
        rw [hfs'] at hmap
        injection hmap with hmap
        have hmap' : (kfn'.1, t) = (kfn.1, df) := hmap
        have h1 : kfn'.1 = kfn.1 := by
          have h2 := congrArg Prod.fst hmap'
          simpa using h2
        have := patterns_key_inj year month kfn' kfn hk' hk h1
        rw [this] at hfs'
        rw [hnone] at hfs'
        cases hfs'
    · exact List.mem_filterMap.mpr ⟨kfn, hk, by rw [hnone]⟩
  · intro hall
    have hnil : (patterns year month).filterMap
        (fun kfn => (fs kfn.2).map (fun df => (kfn.1, df))) = [] :=
      List.filterMap_eq_nil_iff.mpr (fun kfn hk => by rw [hall kfn hk]; rfl)
    rw [hnil] at hload
    simp [compile_monthly_dataset, load_monthly_exports, hload]
  · rintro ⟨kfn, hk, hsome⟩
    cases hfs : fs kfn.2 with
    | none =>
      rw [hfs] at hsome
      cases hsome
    | some t =>
      have hmem : (kfn.1, t) ∈ (patterns year month).filterMap
          (fun kfn => (fs kfn.2).map (fun df => (kfn.1, df))) :=
        List.mem_filterMap.mpr ⟨kfn, hk, by rw [hfs]; rfl⟩
      have hne : ((patterns year month).filterMap
          (fun kfn => (fs kfn.2).map (fun df => (kfn.1, df)))).isEmpty = false := by
        rcases hlist : (patterns year month).filterMap
            (fun kfn => (fs kfn.2).map (fun df => (kfn.1, df))) with _ | ⟨x, xs⟩
        · rw [hlist] at hmem
          exact absurd hmem (by simp)
        · rw [hlist]
          rfl
      simp only [compile_monthly_dataset, load_monthly_exports, hload, hne,
                 Bool.false_eq_true, if_false]
      exact ⟨_, rfl⟩

theorem missing_file_not_fatal_witness :
    ∃ ds ws, load_monthly_exports fsClimateOnly 2024 5 = .ok (ds, ws) ∧
      (∀ kfn ∈ patterns 2024 5, fsClimateOnly kfn.2 = none →
         (∀ df, (kfn.1, df) ∉ ds) ∧ ("Missing export: " ++ kfn.2) ∈ ws) ∧
      ((∀ kfn ∈ patterns 2024 5, fsClimateOnly kfn.2 = none) →
         compile_monthly_dataset thrEx fsClimateOnly 2024 5 "t" = .ok none) ∧
      ((∃ kfn ∈ patterns 2024 5, (fsClimateOnly kfn.2).isSome) →
         ∃ o, compile_monthly_dataset thrEx fsClimateOnly 2024 5 "t" = .ok (some o)) := by
  refine missing_file_not_fatal thrEx fsClimateOnly 2024 5 "t" ?_
  have hp : patterns 2024 5 =
      [("ndvi_evi", "ndvi_evi_2024_05.csv"), ("fire", "fire_burn_2024_05.csv"),
       ("water", "water_ndwi_2024_05.csv"), ("climate", "climate_2024_05.csv")] := by
    decide
  rw [hp]
  intro kfn hk df hdf
  fin_cases hk <;> simp [fsClimateOnly] at hdf
  subst hdf
  decide
